import Mathlib

/-!
Verification of the order/payment consistency core of the EKO-amulet
retail bot (`src/bot.py`).  The Python source is shallowly embedded:
pure functions become Lean functions, the module-level mutable state
(`STOCK_DATA`, `PENDING_PAYMENTS`) becomes explicit state passing, the
external Google-Sheets client and payment gateway become behaviour
parameters (each call may succeed, return `False`, or raise), and side
effects (chat messages, sheet writes) are collected in an effect trace.
-/

namespace EkoBot

/-! ## Inventory ledger (bot.py lines 312-413)

The mutable stock state consists of the durable Google-Sheets value and
the local cache `STOCK_DATA['quantity']`.  `SHEETS_AVAILABLE and sheets`
is frozen for the run as `sheetsAvailable`. -/

/-- Behaviour of one `sheets.get_stock()` call: it returns the durable
value or raises. -/
inductive GetB
  | ok
  | raise
deriving DecidableEq, Repr

/-- Behaviour of one `sheets.set_stock(q)` call: it succeeds, returns
`False`, or raises. -/
inductive SetB
  | ok
  | retFalse
  | raise
deriving DecidableEq, Repr

/-- The stock-related mutable state of the process: whether the sheets
backend is wired up, the durable quantity it holds, and the local cache
`STOCK_DATA['quantity']`. -/
structure StockState where
  sheetsAvailable : Bool
  sheetsStock : Int
  cacheStock : Int
deriving DecidableEq, Repr

/-- Model of `_get_stock_no_lock` (bot.py 312-322): with the backend available it
returns `sheets.get_stock()`, falling back to the local cache when that
call raises; without the backend it returns the local cache.  Reads
never mutate state. -/
def get_stock_no_lock (s : StockState) (g : GetB) : Int :=
  if s.sheetsAvailable then
    match g with
    | GetB.ok => s.sheetsStock
    | GetB.raise => s.cacheStock
  else s.cacheStock

/-- Model of `_set_stock_no_lock` (bot.py 324-342): with the backend available it
calls `sheets.set_stock(q)`; on success it also updates the cache and
returns `True`; if the call returns `False` nothing changes; if it
raises, only the cache is updated and `False` is returned.  Without the
backend only the cache is updated and `True` is returned. -/
def set_stock_no_lock (s : StockState) (q : Int) (b : SetB) : Bool × StockState :=
  if s.sheetsAvailable then
    match b with
    | SetB.ok => (true, { s with sheetsStock := q, cacheStock := q })
    | SetB.retFalse => (false, s)
    | SetB.raise => (false, { s with cacheStock := q })
  else (true, { s with cacheStock := q })

/-- Model of `get_stock` (bot.py 373-376): the locked read; the lock serialises
whole operations, so under the lock it is exactly the unlocked read. -/
def get_stock (s : StockState) (g : GetB) : Int :=
  get_stock_no_lock s g

/-- Model of `decrease_stock_safe` (bot.py 383-399): under the stock lock, read
the current quantity; if it is `≤ 0` return `None` without mutating;
otherwise write `current - 1` and return the new value on success,
`None` on write failure. -/
def decrease_stock_safe (s : StockState) (g : GetB) (b : SetB) :
    Option Int × StockState :=
  let current := get_stock_no_lock s g
  if current ≤ 0 then (none, s)
  else
    let r := set_stock_no_lock s (current - 1) b
    if r.1 then (some (current - 1), r.2) else (none, r.2)

/-- Model of `increase_stock_safe` (bot.py 401-413): under the stock lock, read
the current quantity, write `current + count`, and return the new value
on success, `None` on write failure. -/
def increase_stock_safe (s : StockState) (count : Int) (g : GetB) (b : SetB) :
    Option Int × StockState :=
  let current := get_stock_no_lock s g
  let r := set_stock_no_lock s (current + count) b
  if r.1 then (some (current + count), r.2) else (none, r.2)

/-! ## Operation traces over the ledger (claim C1)

Because every ledger operation runs inside `stock_lock`, an arbitrary
concurrent execution is a sequence of whole operations; each carries the
behaviour of the backend calls it makes. -/

/-- One serialised ledger operation: a `decrease_stock_safe` call or an
`increase_stock_safe count` call, each with the behaviours of its
backend read and write. -/
inductive StockOp
  | dec (g : GetB) (b : SetB)
  | inc (count : Int) (g : GetB) (b : SetB)
deriving DecidableEq, Repr

/-- The increment amount an operation applies (`0` for a decrement). -/
def StockOp.incCount : StockOp → Int
  | StockOp.dec _ _ => 0
  | StockOp.inc c _ _ => c

/-- Run a sequence of ledger operations from a state, returning the
final state together with the number of successful decrements. -/
def runStockOps (s : StockState) : List StockOp → StockState × Nat
  | [] => (s, 0)
  | StockOp.dec g b :: rest =>
      let r := decrease_stock_safe s g b
      let t := runStockOps r.2 rest
      (t.1, (if r.1.isSome then 1 else 0) + t.2)
  | StockOp.inc c g b :: rest =>
      let r := increase_stock_safe s c g b
      runStockOps r.2 rest

/-- Total increment amount applied by a sequence of operations. -/
def incTotal (ops : List StockOp) : Int :=
  (ops.map StockOp.incCount).sum

/-- Invariant tying the ledger state to its remaining potential `P`
(initial quantity plus increments so far minus successful decrements so
far): every observable quantity is non-negative and at most `P`.  The
durable value is only observable while the backend is available. -/
def StockInv (s : StockState) (P : Int) : Prop :=
  0 ≤ s.cacheStock ∧ s.cacheStock ≤ P ∧
  (s.sheetsAvailable = true → 0 ≤ s.sheetsStock ∧ s.sheetsStock ≤ P)

lemma decrease_step (s : StockState) (g : GetB) (b : SetB) (P : Int)
    (h : StockInv s P) :
    StockInv (decrease_stock_safe s g b).2
      (P - (if (decrease_stock_safe s g b).1.isSome then 1 else 0)) := by
  obtain ⟨h1, h2, h3⟩ := h
  unfold decrease_stock_safe get_stock_no_lock set_stock_no_lock StockInv
  cases hA : s.sheetsAvailable <;> cases g <;> cases b <;>
    simp_all <;> split <;> simp_all <;> omega

lemma increase_step (s : StockState) (c : Int) (g : GetB) (b : SetB) (P : Int)
    (h : StockInv s P) (hc : 0 ≤ c) :
    StockInv (increase_stock_safe s c g b).2 (P + c) := by
  obtain ⟨h1, h2, h3⟩ := h
  unfold increase_stock_safe get_stock_no_lock set_stock_no_lock StockInv
  cases hA : s.sheetsAvailable <;> cases g <;> cases b <;>
    simp_all <;> omega

lemma runStockOps_inv : ∀ (ops : List StockOp) (s : StockState) (P : Int),
    StockInv s P → (∀ op ∈ ops, 0 ≤ op.incCount) →
    StockInv (runStockOps s ops).1
      (P + incTotal ops - (runStockOps s ops).2) := by
  intro ops
  induction ops with
  | nil =>
      intro s P h _
      simpa [runStockOps, incTotal] using h
  | cons op rest ih =>
      intro s P h hc
      cases op with
      | dec g b =>
          have hstep := decrease_step s g b P h
          have hrest := ih (decrease_stock_safe s g b).2 _ hstep
            (fun o ho => hc o (List.mem_cons_of_mem _ ho))
          simp only [runStockOps, incTotal, List.map_cons, List.sum_cons,
            StockOp.incCount] at hrest ⊢
          obtain ⟨r1, r2, r3⟩ := hrest
          refine ⟨r1, by push_cast; omega,
            fun hA => ⟨(r3 hA).1, by have := (r3 hA).2; push_cast at this ⊢; omega⟩⟩
      | inc c g b =>
          have hcc : 0 ≤ c := by
            have := hc (StockOp.inc c g b) (List.mem_cons_self _ _)
            simpa [StockOp.incCount] using this
          have hstep := increase_step s c g b P h hcc
          have hrest := ih (increase_stock_safe s c g b).2 _ hstep
            (fun o ho => hc o (List.mem_cons_of_mem _ ho))
          simp only [runStockOps, incTotal, List.map_cons, List.sum_cons,
            StockOp.incCount] at hrest ⊢
          obtain ⟨r1, r2, r3⟩ := hrest
          exact ⟨r1, by omega, fun hA => ⟨(r3 hA).1, by have := (r3 hA).2; omega⟩⟩

/-- C1: for every sequence of serialised `decrease_stock_safe` calls
interleaved with arbitrary `increase_stock_safe` calls (each against an
arbitrarily failing backend), starting from a synchronised non-negative
quantity, every quantity any reader observes stays `≥ 0`, and the number
of successful decrements never exceeds the initial quantity plus the
total increments applied.  Since the sequence is universally quantified,
the bound holds at every intermediate point of a longer run
(instantiate the theorem at that prefix of the run). -/
theorem stock_never_oversold (av : Bool) (q0 : Int) (ops : List StockOp)
    (h0 : 0 ≤ q0) (hc : ∀ op ∈ ops, 0 ≤ op.incCount) :
    (∀ g : GetB, 0 ≤ get_stock (runStockOps ⟨av, q0, q0⟩ ops).1 g) ∧
    ((runStockOps ⟨av, q0, q0⟩ ops).2 : Int) ≤ q0 + incTotal ops := by
  have hinv : StockInv (⟨av, q0, q0⟩ : StockState) q0 :=
    ⟨h0, le_refl _, fun _ => ⟨h0, le_refl _⟩⟩
  have h := runStockOps_inv ops ⟨av, q0, q0⟩ q0 hinv hc
  obtain ⟨h1, h2, h3⟩ := h
  constructor
  · intro g
    unfold get_stock get_stock_no_lock
    cases hA : (runStockOps ⟨av, q0, q0⟩ ops).1.sheetsAvailable <;>
      cases g <;> simp_all
  · omega

/-- Witness for C1 at a concrete run: stock 2, one decrement, one
increment by 1, then two more decrements. -/
theorem stock_never_oversold_witness :
    ((0 : Int) ≤ 2 ∧
      ∀ op ∈ [StockOp.dec GetB.ok SetB.ok, StockOp.inc 1 GetB.ok SetB.ok,
        StockOp.dec GetB.ok SetB.ok, StockOp.dec GetB.ok SetB.ok],
        0 ≤ op.incCount) ∧
    ((∀ g : GetB, 0 ≤ get_stock
        (runStockOps ⟨true, 2, 2⟩
          [StockOp.dec GetB.ok SetB.ok, StockOp.inc 1 GetB.ok SetB.ok,
            StockOp.dec GetB.ok SetB.ok, StockOp.dec GetB.ok SetB.ok]).1 g) ∧
      ((runStockOps ⟨true, 2, 2⟩
          [StockOp.dec GetB.ok SetB.ok, StockOp.inc 1 GetB.ok SetB.ok,
            StockOp.dec GetB.ok SetB.ok, StockOp.dec GetB.ok SetB.ok]).2 : Int)
        ≤ 2 + incTotal
            [StockOp.dec GetB.ok SetB.ok, StockOp.inc 1 GetB.ok SetB.ok,
              StockOp.dec GetB.ok SetB.ok, StockOp.dec GetB.ok SetB.ok]) :=
  ⟨⟨by decide, by decide⟩,
    stock_never_oversold true 2 _ (by decide) (by decide)⟩

/-! ## Claim C6: exact behaviour of `decrease_stock_safe` -/

/-- C6 counterexample: with a positive quantity (5) but a durable write
that fails by returning `False` (bot.py 334-335), `decrease_stock_safe`
returns `None` instead of the new quantity `4`, refuting the claim that
a positive quantity always yields `quantity - 1`. -/
theorem decrease_stock_counterexample :
    get_stock_no_lock ⟨true, 5, 5⟩ GetB.ok = 5 ∧
    (decrease_stock_safe ⟨true, 5, 5⟩ GetB.ok SetB.retFalse).1 = none ∧
    (decrease_stock_safe ⟨true, 5, 5⟩ GetB.ok SetB.retFalse).2 = ⟨true, 5, 5⟩ ∧
    (decrease_stock_safe ⟨true, 5, 5⟩ GetB.ok SetB.retFalse).1 ≠ some 4 := by
  refine ⟨rfl, rfl, rfl, ?_⟩
  decide

/-- C6 (amended): `decrease_stock_safe` reads the current quantity under
the lock; when it is `≤ 0` it returns `None` and mutates nothing
(neither the durable backend nor the local cache); otherwise it attempts
to write `quantity - 1`: on a successful write it returns the new
quantity, on a write returning `False` it returns `None` leaving both
values unchanged, and on a write that raises it returns `None` with only
the local cache updated to `quantity - 1`.  Without the backend the
write always succeeds against the cache. -/
theorem decrease_stock_safe_spec (s : StockState) (g : GetB) (b : SetB) :
    (get_stock_no_lock s g ≤ 0 → decrease_stock_safe s g b = (none, s)) ∧
    (0 < get_stock_no_lock s g →
      (s.sheetsAvailable = true → b = SetB.ok →
        decrease_stock_safe s g b =
          (some (get_stock_no_lock s g - 1),
            { s with sheetsStock := get_stock_no_lock s g - 1,
                     cacheStock := get_stock_no_lock s g - 1 })) ∧
      (s.sheetsAvailable = true → b = SetB.retFalse →
        decrease_stock_safe s g b = (none, s)) ∧
      (s.sheetsAvailable = true → b = SetB.raise →
        decrease_stock_safe s g b =
          (none, { s with cacheStock := get_stock_no_lock s g - 1 })) ∧
      (s.sheetsAvailable = false →
        decrease_stock_safe s g b =
          (some (get_stock_no_lock s g - 1),
            { s with cacheStock := get_stock_no_lock s g - 1 }))) := by
  unfold decrease_stock_safe set_stock_no_lock
  cases hA : s.sheetsAvailable <;> cases b <;>
    constructor <;> intro h <;> simp_all

/-- Witness for C6 (amended) at quantity 5 with a healthy backend. -/
theorem decrease_stock_safe_spec_witness :
    0 < get_stock_no_lock ⟨true, 5, 5⟩ GetB.ok ∧
    decrease_stock_safe ⟨true, 5, 5⟩ GetB.ok SetB.ok = (some 4, ⟨true, 4, 4⟩) :=
  ⟨by decide, by
    have h := (decrease_stock_safe_spec ⟨true, 5, 5⟩ GetB.ok SetB.ok).2
      (by decide)
    simpa using h.1 rfl rfl⟩

/-! ## Pending payments, orders, and side effects

`PENDING_PAYMENTS` (bot.py 206) is a dict keyed by the provider payment
id; it is modelled as an association list in which insertion shadows and
deletion removes the key.  The chat messages and sheet mutations the
handlers perform are collected as an effect trace. -/

/-- One entry of `PENDING_PAYMENTS` (bot.py 1298-1309); the wall-clock
`created_at` field is never read by the verified logic and is omitted. -/
structure OrderData where
  user_id : Int
  fio : String
  address : String
  phone : String
  email : String
  product_id : String
  product_name : String
  product_price : Int
  status : String
deriving DecidableEq, Repr

/-- The `PENDING_PAYMENTS` dict as an association list. -/
abbrev Pending := List (String × OrderData)

/-- Dict lookup `PENDING_PAYMENTS[pid]` / membership test. -/
def lookupPending : Pending → String → Option OrderData
  | [], _ => none
  | e :: rest, k => if e.1 = k then some e.2 else lookupPending rest k

/-- Dict deletion `del PENDING_PAYMENTS[pid]`. -/
def removeKey (p : Pending) (k : String) : Pending :=
  p.filter (fun e => e.1 != k)

lemma lookupPending_removeKey (p : Pending) (k : String) :
    lookupPending (removeKey p k) k = none := by
  induction p with
  | nil => rfl
  | cons e rest ih =>
      by_cases h : e.1 = k <;> simp [removeKey, lookupPending, h] at ih ⊢ <;>
        simpa [removeKey] using ih

/-- Observable side effects of the workflow and the webhook reconciler:
payment-gateway calls, ledger calls, order-store calls, and chat
notifications (tagged by which message site emits them). -/
inductive Effect
  | payCreate
  | stockDec
  | stockInc (n : Int)
  | addOrder (pid : String)
  | updateStatus (pid : String) (status : String)
  | buyerMsg (uid : Int) (tag : String)
  | adminMsg (tag : String)
  | adminAlertUnsaved (pid : String) (phone : String) (fio : String)
      (product : String)
deriving DecidableEq, Repr

/-! ## Order confirmation workflow (`confirm_order`, bot.py 1254-1427) -/

/-- Env-default stock thresholds (bot.py 79-80). -/
def LOW_STOCK_THRESHOLD : Int := 5

def CRITICAL_STOCK_THRESHOLD : Int := 3

/-- Outcome of `create_yookassa_payment` (bot.py 344-366): a payment id
with redirect url, or the none-pair on any failure. -/
inductive PayResult
  | ok (pid : String) (url : String)
  | fail
deriving DecidableEq, Repr

/-- The buyer data `confirm_order` reads out of `context.user_data`
(bot.py 1262-1277), with the product-name fallbacks already applied. -/
structure ConfirmInput where
  user_id : Int
  fio : String
  address : String
  phone : String
  email : String
  product_id : String
  product_name : String
  product_price : Int
deriving DecidableEq, Repr

/-- The threshold alerts emitted right after a successful decrement
(bot.py 1319-1335). -/
def thresholdAlerts (newStock : Int) : List Effect :=
  if newStock ≤ CRITICAL_STOCK_THRESHOLD then [Effect.adminMsg "critical-stock"]
  else if newStock ≤ LOW_STOCK_THRESHOLD then [Effect.adminMsg "low-stock"]
  else []

/-- Model of `confirm_order` (bot.py 1254-1427): create the payment (abort on
failure), record the `PENDING_PAYMENTS` entry, decrement stock for the
physical product (deleting the pending entry and aborting when out of
stock), then add the order row via the retry wrapper; on add failure
compensate by incrementing stock back (physical product only), alert
the operator with the order details, and inform the buyer.  The add
call's outcome is the `addOutcome` parameter; its internal retries are
modelled separately by `add_order_to_sheets_with_retry`.  Returns the
new `PENDING_PAYMENTS`, the new stock state, and the effect trace. -/
def confirm_order (inp : ConfirmInput) (pay : PayResult)
    (stock : StockState) (decG : GetB) (decB : SetB) (incG : GetB) (incB : SetB)
    (addOutcome : Bool) (pending : Pending) :
    Pending × StockState × List Effect :=
  match pay with
  | PayResult.fail =>
      (pending, stock, [Effect.payCreate, Effect.buyerMsg inp.user_id "payment-create-error"])
  | PayResult.ok pid _url =>
      let od : OrderData :=
        ⟨inp.user_id, inp.fio, inp.address, inp.phone, inp.email,
          inp.product_id, inp.product_name, inp.product_price, "pending"⟩
      let pending1 : Pending := (pid, od) :: pending
      if inp.product_id = "amulet" then
        let r := decrease_stock_safe stock decG decB
        match r.1 with
        | some newStock =>
            if addOutcome then
              (pending1, r.2,
                [Effect.payCreate, Effect.stockDec] ++ thresholdAlerts newStock ++
                  [Effect.addOrder pid, Effect.buyerMsg inp.user_id "payment-link",
                    Effect.buyerMsg inp.user_id "eco-thanks",
                    Effect.buyerMsg inp.user_id "after-payment-note",
                    Effect.adminMsg "new-order"])
            else
              let ri := increase_stock_safe r.2 1 incG incB
              (pending1, ri.2,
                [Effect.payCreate, Effect.stockDec] ++ thresholdAlerts newStock ++
                  [Effect.addOrder pid, Effect.stockInc 1,
                    Effect.adminAlertUnsaved pid inp.phone inp.fio inp.product_name,
                    Effect.buyerMsg inp.user_id "order-save-failed"])
        | none =>
            (removeKey pending1 pid, r.2,
              [Effect.payCreate, Effect.stockDec,
                Effect.buyerMsg inp.user_id "out-of-stock"])
      else
        if addOutcome then
          (pending1, stock,
            [Effect.payCreate, Effect.addOrder pid,
              Effect.buyerMsg inp.user_id "payment-link",
              Effect.buyerMsg inp.user_id "eco-thanks",
              Effect.buyerMsg inp.user_id "after-payment-note",
              Effect.adminMsg "new-order"])
        else
          (pending1, stock,
            [Effect.payCreate, Effect.addOrder pid,
              Effect.adminAlertUnsaved pid inp.phone inp.fio inp.product_name,
              Effect.buyerMsg inp.user_id "order-save-failed"])

/-- C3: when the order-store add ultimately fails for a stock-tracked
product after a successful decrement, stock is incremented back by 1, so
with a healthy ledger backend the final stock state equals the
pre-decrement state (a subsequent `get_stock` returns the initial
quantity for every reader), a critical operator alert carrying the order
details is emitted, and the buyer is informed of the failure. -/
theorem compensation_on_add_failure (inp : ConfirmInput) (pid url : String)
    (av : Bool) (q0 : Int) (pending : Pending)
    (hprod : inp.product_id = "amulet") (hq : 0 < q0) :
    (confirm_order inp (PayResult.ok pid url) ⟨av, q0, q0⟩
        GetB.ok SetB.ok GetB.ok SetB.ok false pending).2.1 = ⟨av, q0, q0⟩ ∧
    (∀ g : GetB,
      get_stock (confirm_order inp (PayResult.ok pid url) ⟨av, q0, q0⟩
        GetB.ok SetB.ok GetB.ok SetB.ok false pending).2.1 g = q0) ∧
    Effect.stockInc 1 ∈
      (confirm_order inp (PayResult.ok pid url) ⟨av, q0, q0⟩
        GetB.ok SetB.ok GetB.ok SetB.ok false pending).2.2 ∧
    Effect.adminAlertUnsaved pid inp.phone inp.fio inp.product_name ∈
      (confirm_order inp (PayResult.ok pid url) ⟨av, q0, q0⟩
        GetB.ok SetB.ok GetB.ok SetB.ok false pending).2.2 ∧
    Effect.buyerMsg inp.user_id "order-save-failed" ∈
      (confirm_order inp (PayResult.ok pid url) ⟨av, q0, q0⟩
        GetB.ok SetB.ok GetB.ok SetB.ok false pending).2.2 := by
  have hdec : decrease_stock_safe ⟨av, q0, q0⟩ GetB.ok SetB.ok =
      (some (q0 - 1), ⟨av, if av then q0 - 1 else q0, q0 - 1⟩) := by
    cases av <;> simp [decrease_stock_safe, get_stock_no_lock,
      set_stock_no_lock, not_le.mpr hq]
  have hinc : increase_stock_safe ⟨av, if av then q0 - 1 else q0, q0 - 1⟩
        1 GetB.ok SetB.ok = (some q0, ⟨av, q0, q0⟩) := by
    cases av <;> simp [increase_stock_safe, get_stock_no_lock,
      set_stock_no_lock]
  simp only [confirm_order, hprod, if_true, hdec, hinc]
  refine ⟨rfl, ?_, ?_, ?_, ?_⟩
  · intro g
    cases av <;> cases g <;> simp [get_stock, get_stock_no_lock]
  all_goals simp

/-- Witness for C3 at a concrete order and initial stock 5. -/
theorem compensation_on_add_failure_witness :
    ((⟨7, "Иванов Иван", "Москва, Тверская 1", "+79990001122", "",
        "amulet", "ЭКОамулет", 1000⟩ : ConfirmInput).product_id = "amulet" ∧
      (0 : Int) < 5) ∧
    (confirm_order
        ⟨7, "Иванов Иван", "Москва, Тверская 1", "+79990001122", "",
          "amulet", "ЭКОамулет", 1000⟩
        (PayResult.ok "pay_1" "https://pay") ⟨true, 5, 5⟩
        GetB.ok SetB.ok GetB.ok SetB.ok false []).2.1 = ⟨true, 5, 5⟩ :=
  ⟨⟨rfl, by decide⟩,
    (compensation_on_add_failure
      ⟨7, "Иванов Иван", "Москва, Тверская 1", "+79990001122", "",
        "amulet", "ЭКОамулет", 1000⟩
      "pay_1" "https://pay" true 5 [] rfl (by decide)).1⟩

/-- The calls into the payment gateway, inventory ledger (decrement),
and order store, in trace order. -/
def externalCalls (effs : List Effect) : List Effect :=
  effs.filter (fun e =>
    match e with
    | Effect.payCreate => true
    | Effect.stockDec => true
    | Effect.addOrder _ => true
    | _ => false)

/-- C7 counterexample: on a concrete successful confirmation of the
stock-tracked product, the external calls happen in the order
payment-create, ledger-decrement, order-add — not ledger-decrement
first as the claim states. -/
theorem confirm_order_call_order_counterexample :
    externalCalls (confirm_order
        ⟨7, "Иванов Иван", "Москва, Тверская 1", "+79990001122", "",
          "amulet", "ЭКОамулет", 1000⟩
        (PayResult.ok "pay_1" "https://pay") ⟨true, 10, 10⟩
        GetB.ok SetB.ok GetB.ok SetB.ok true []).2.2
      = [Effect.payCreate, Effect.stockDec, Effect.addOrder "pay_1"] ∧
    externalCalls (confirm_order
        ⟨7, "Иванов Иван", "Москва, Тверская 1", "+79990001122", "",
          "amulet", "ЭКОамулет", 1000⟩
        (PayResult.ok "pay_1" "https://pay") ⟨true, 10, 10⟩
        GetB.ok SetB.ok GetB.ok SetB.ok true []).2.2
      ≠ [Effect.stockDec, Effect.payCreate, Effect.addOrder "pay_1"] := by
  constructor
  · rfl
  · decide

/-- C7 (amended): on reaching confirmation for the stock-tracked
product, the workflow performs its external calls in the order Payment
Gateway create first, then Inventory Ledger decrement, then Order Store
add, and produces a pending order keyed by the returned payment id. -/
theorem confirm_order_call_order (inp : ConfirmInput) (pid url : String)
    (stock : StockState) (decG : GetB) (incG : GetB) (incB : SetB)
    (pending : Pending)
    (hprod : inp.product_id = "amulet")
    (hq : 0 < get_stock_no_lock stock decG) :
    externalCalls (confirm_order inp (PayResult.ok pid url) stock
        decG SetB.ok incG incB true pending).2.2
      = [Effect.payCreate, Effect.stockDec, Effect.addOrder pid] ∧
    lookupPending (confirm_order inp (PayResult.ok pid url) stock
        decG SetB.ok incG incB true pending).1 pid
      = some ⟨inp.user_id, inp.fio, inp.address, inp.phone, inp.email,
          inp.product_id, inp.product_name, inp.product_price, "pending"⟩ := by
  have hdec : (decrease_stock_safe stock decG SetB.ok).1 =
      some (get_stock_no_lock stock decG - 1) := by
    simp [decrease_stock_safe, set_stock_no_lock, not_le.mpr hq]
    split <;> simp
  simp only [confirm_order, hprod, if_true]
  rw [hdec]
  refine ⟨?_, by simp [lookupPending]⟩
  simp [externalCalls, thresholdAlerts]
  split <;> simp

/-- Witness for C7 (amended) at a concrete confirmation. -/
theorem confirm_order_call_order_witness :
    ((⟨7, "Иванов Иван", "Москва, Тверская 1", "+79990001122", "",
        "amulet", "ЭКОамулет", 1000⟩ : ConfirmInput).product_id = "amulet" ∧
      0 < get_stock_no_lock ⟨true, 10, 10⟩ GetB.ok) ∧
    externalCalls (confirm_order
        ⟨7, "Иванов Иван", "Москва, Тверская 1", "+79990001122", "",
          "amulet", "ЭКОамулет", 1000⟩
        (PayResult.ok "pay_1" "https://pay") ⟨true, 10, 10⟩
        GetB.ok SetB.ok GetB.ok SetB.ok true []).2.2
      = [Effect.payCreate, Effect.stockDec, Effect.addOrder "pay_1"] :=
  ⟨⟨rfl, by decide⟩,
    (confirm_order_call_order
      ⟨7, "Иванов Иван", "Москва, Тверская 1", "+79990001122", "",
        "amulet", "ЭКОамулет", 1000⟩
      "pay_1" "https://pay" ⟨true, 10, 10⟩ GetB.ok GetB.ok SetB.ok []
      rfl (by decide)).1⟩

/-! ## Successful-payment processing and the webhook reconciler
(bot.py 415-530 and 1922-2002) -/

/-- The child-beneficiary certificate product ids (bot.py 448). -/
def certKids : List String := ["kid", "cert_digital", "cert_box"]

/-- The accessibility-beneficiary certificate product ids (bot.py 456). -/
def certSpecial : List String := ["special", "cert_special_digital", "cert_special_box"]

/-- The category-specific buyer thank-you of a successful payment
(bot.py 446-461): certificate products get one special message, other
products none here. -/
def successThanks (od : OrderData) : List Effect :=
  if od.product_id ∈ certKids then
    [Effect.buyerMsg od.user_id "cert-thanks-kids"]
  else if od.product_id ∈ certSpecial then
    [Effect.buyerMsg od.user_id "cert-thanks-special"]
  else []

/-- The rest of the successful-payment notifications (bot.py 463-514):
certificate products get the certificate operator notification; all
other products get the three standard buyer messages plus the standard
operator notification. -/
def successRest (od : OrderData) : List Effect :=
  if od.product_id ∈ certKids ++ certSpecial then
    [Effect.adminMsg "cert-purchase"]
  else
    [Effect.buyerMsg od.user_id "thanks-purchase",
      Effect.buyerMsg od.user_id "eco-message",
      Effect.buyerMsg od.user_id "order-details",
      Effect.adminMsg "payment-success"]

/-- Model of `process_successful_payment` (bot.py 415-530): an unknown payment id
is treated as already processed (returns `True`, no effects).  For a
known id the order status is set to paid via the retry wrapper (outcome
`updOutcome`); on success the buyer and operator notifications are sent,
the pending entry is deleted and `True` is returned; on failure the
operator is alerted, the pending entry is kept, and `False` is
returned. -/
def process_successful_payment (pending : Pending) (updOutcome : Bool)
    (pid : String) : Bool × Pending × List Effect :=
  match lookupPending pending pid with
  | none => (true, pending, [])
  | some od =>
      if updOutcome then
        (true, removeKey pending pid,
          Effect.updateStatus pid "Успешно оплачено" ::
            (successThanks od ++ successRest od))
      else
        (false, pending,
          [Effect.updateStatus pid "Успешно оплачено",
            Effect.adminMsg "status-not-updated"])

/-- Outcome of the `Payment.find_one` re-verification call
(bot.py 1947): the status the gateway reports, or an exception. -/
inductive ApiResult
  | status (st : String)
  | raise
deriving DecidableEq, Repr

/-- The parsed webhook payload fields the handler reads
(bot.py 1928-1938). -/
structure WebhookInput where
  event : String
  pid : String
  status : String
deriving DecidableEq, Repr

/-- Model of `handle_yookassa_webhook` (bot.py 1922-2002).  For a reported
succeeded event the status is re-verified against the gateway: a raise
yields 500, a non-succeeded gateway status yields 200 with no state
change, and a confirmed success runs `process_successful_payment`
(500 when that fails, 200 otherwise).  For a reported cancellation with
a known pending id, stock is incremented back, the order status set to
canceled, operator and buyer notified, and the entry removed; all other
payloads are acknowledged with 200.  Returns the HTTP status, the new
pending dict, the new stock state, and the effect trace. -/
def handle_yookassa_webhook (inp : WebhookInput) (api : ApiResult)
    (updOutcome : Bool) (incG : GetB) (incB : SetB)
    (pending : Pending) (stock : StockState) :
    Nat × Pending × StockState × List Effect :=
  if inp.event = "payment.succeeded" ∧ inp.status = "succeeded" then
    match api with
    | ApiResult.raise => (500, pending, stock, [])
    | ApiResult.status st =>
        if st ≠ "succeeded" then (200, pending, stock, [])
        else
          let r := process_successful_payment pending updOutcome inp.pid
          (if r.1 then 200 else 500, r.2.1, stock, r.2.2)
  else if inp.event = "payment.canceled" ∨ inp.status = "canceled" then
    match lookupPending pending inp.pid with
    | none => (200, pending, stock, [])
    | some od =>
        let ri := increase_stock_safe stock 1 incG incB
        (200, removeKey pending inp.pid, ri.2,
          [Effect.stockInc 1,
            Effect.updateStatus inp.pid "Отменено",
            Effect.adminMsg "payment-canceled",
            Effect.buyerMsg od.user_id "payment-canceled"])
  else (200, pending, stock, [])

/-- C4: when the webhook reports `payment.succeeded` but the gateway
re-verification returns any status other than `succeeded`, the handler
responds 200 and performs no state change: pending payments, stock and
the effect trace (order store, notifications) are all untouched. -/
theorem webhook_mismatch_no_side_effects (pid st : String)
    (updOutcome : Bool) (incG : GetB) (incB : SetB)
    (pending : Pending) (stock : StockState)
    (hst : st ≠ "succeeded") :
    handle_yookassa_webhook ⟨"payment.succeeded", pid, "succeeded"⟩
        (ApiResult.status st) updOutcome incG incB pending stock
      = (200, pending, stock, []) := by
  simp [handle_yookassa_webhook, hst]

/-- Witness for C4: the spec scenario where the gateway still reports
`pending`. -/
theorem webhook_mismatch_no_side_effects_witness :
    "pending" ≠ "succeeded" ∧
    handle_yookassa_webhook ⟨"payment.succeeded", "pay_1", "succeeded"⟩
        (ApiResult.status "pending") true GetB.ok SetB.ok
        [] ⟨true, 5, 5⟩
      = (200, [], ⟨true, 5, 5⟩, []) :=
  ⟨by decide,
    webhook_mismatch_no_side_effects "pay_1" "pending" true GetB.ok SetB.ok
      [] ⟨true, 5, 5⟩ (by decide)⟩

/-! ## Claim C2: idempotence under duplicate delivery -/

/-- Deliver the same verified `payment.succeeded` webhook for `pid`
`n` times in a row, threading the pending dict; the succeeded branch
never touches stock, so the stock state is a fixed parameter.  Returns
the list of (HTTP status, effects) per delivery and the final pending
dict. -/
def deliverN (pid : String) (updOutcome : Bool) (incG : GetB) (incB : SetB)
    (stock : StockState) : Pending → Nat → List (Nat × List Effect) × Pending
  | p, 0 => ([], p)
  | p, Nat.succ n =>
      let r := handle_yookassa_webhook ⟨"payment.succeeded", pid, "succeeded"⟩
        (ApiResult.status "succeeded") updOutcome incG incB p stock
      let t := deliverN pid updOutcome incG incB stock r.2.1 n
      ((r.1, r.2.2.2) :: t.1, t.2)

/-- Number of `updateStatus pid "Успешно оплачено"` calls in a trace. -/
def countPaidUpdates (pid : String) (effs : List Effect) : Nat :=
  (effs.filter (fun e => e = Effect.updateStatus pid "Успешно оплачено")).length

lemma successThanks_no_update (od : OrderData) (pid : String) :
    countPaidUpdates pid (successThanks od) = 0 := by
  unfold successThanks countPaidUpdates
  split <;> simp_all

lemma successRest_no_update (od : OrderData) (pid : String) :
    countPaidUpdates pid (successRest od) = 0 := by
  unfold successRest countPaidUpdates
  split <;> simp_all

lemma countPaidUpdates_append (pid : String) (l1 l2 : List Effect) :
    countPaidUpdates pid (l1 ++ l2)
      = countPaidUpdates pid l1 + countPaidUpdates pid l2 := by
  simp [countPaidUpdates]

lemma flatten_replicate_nil (n : Nat) :
    (List.replicate n ([] : List Effect)).flatten = [] := by
  induction n with
  | zero => rfl
  | succ m ihm => simp [List.replicate_succ, ihm]

lemma deliverN_absent (pid : String) (updOutcome : Bool) (incG : GetB)
    (incB : SetB) (stock : StockState) (p : Pending) (n : Nat)
    (h : lookupPending p pid = none) :
    deliverN pid updOutcome incG incB stock p n
      = (List.replicate n (200, []), p) := by
  induction n with
  | zero => simp [deliverN]
  | succ n ih =>
      have hstep : handle_yookassa_webhook
          ⟨"payment.succeeded", pid, "succeeded"⟩
          (ApiResult.status "succeeded") updOutcome incG incB p stock
          = (200, p, stock, []) := by
        simp [handle_yookassa_webhook, process_successful_payment, h]
      simp [deliverN, hstep, ih, List.replicate_succ]

/-- C2: for a pending payment id, delivering the verified succeeded
webhook `n + 1` times triggers the paid status update exactly once in
total; every delivery is acknowledged with 200; after the first
processing the pending entry is gone; and every delivery after the
first performs no side effects and leaves the pending dict as it was
after the first. -/
theorem webhook_idempotent (pending : Pending) (pid : String)
    (od : OrderData) (stock : StockState) (incG : GetB) (incB : SetB)
    (n : Nat) (h : lookupPending pending pid = some od) :
    (∀ pr ∈ (deliverN pid true incG incB stock pending (n + 1)).1, pr.1 = 200) ∧
    countPaidUpdates pid
        (((deliverN pid true incG incB stock pending (n + 1)).1.map
          Prod.snd).flatten) = 1 ∧
    lookupPending (deliverN pid true incG incB stock pending (n + 1)).2 pid
      = none ∧
    ∀ pr ∈ ((deliverN pid true incG incB stock pending (n + 1)).1).tail,
      pr.2 = ([] : List Effect) := by
  have hstep : handle_yookassa_webhook
      ⟨"payment.succeeded", pid, "succeeded"⟩
      (ApiResult.status "succeeded") true incG incB pending stock
      = (200, removeKey pending pid, stock,
          Effect.updateStatus pid "Успешно оплачено" ::
            (successThanks od ++ successRest od)) := by
    simp [handle_yookassa_webhook, process_successful_payment, h]
  have habs : lookupPending (removeKey pending pid) pid = none :=
    lookupPending_removeKey pending pid
  have hrest := deliverN_absent pid true incG incB stock
    (removeKey pending pid) n habs
  have hrun : deliverN pid true incG incB stock pending (n + 1)
      = ((200, Effect.updateStatus pid "Успешно оплачено" ::
            (successThanks od ++ successRest od)) ::
          List.replicate n (200, []), removeKey pending pid) := by
    simp [deliverN, hstep, hrest]
  rw [hrun]
  refine ⟨?_, ?_, habs, ?_⟩
  · intro pr hpr
    rcases List.mem_cons.mp hpr with h1 | h1
    · simp [h1]
    · have := List.eq_of_mem_replicate h1
      simp [this]
  · have hth := successThanks_no_update od pid
    have hre := successRest_no_update od pid
    simp only [List.map_cons, List.flatten_cons]
    rw [countPaidUpdates_append]
    have hz : countPaidUpdates pid
        (((List.replicate n ((200 : Nat), ([] : List Effect))).map
          Prod.snd).flatten) = 0 := by
      have hmap : (List.replicate n ((200 : Nat), ([] : List Effect))).map
          Prod.snd = List.replicate n ([] : List Effect) := by
        simp [List.map_replicate]
      rw [hmap, flatten_replicate_nil]
      rfl
    rw [hz]
    have hcons : countPaidUpdates pid
        (Effect.updateStatus pid "Успешно оплачено" ::
          (successThanks od ++ successRest od))
        = 1 + countPaidUpdates pid (successThanks od ++ successRest od) := by
      simp [countPaidUpdates]
      omega
    rw [hcons, countPaidUpdates_append, hth, hre]
  · intro pr hpr
    simp only [List.tail_cons] at hpr
    have := List.eq_of_mem_replicate hpr
    simp [this]

/-- Witness for C2 at a concrete pending order delivered three times. -/
theorem webhook_idempotent_witness :
    lookupPending
        [("pay_1", (⟨7, "Иванов Иван", "Москва, Тверская 1", "+79990001122",
          "", "amulet", "ЭКОамулет", 1000, "pending"⟩ : OrderData))] "pay_1"
      = some ⟨7, "Иванов Иван", "Москва, Тверская 1", "+79990001122",
          "", "amulet", "ЭКОамулет", 1000, "pending"⟩ ∧
    countPaidUpdates "pay_1"
        (((deliverN "pay_1" true GetB.ok SetB.ok ⟨true, 5, 5⟩
          [("pay_1", ⟨7, "Иванов Иван", "Москва, Тверская 1", "+79990001122",
            "", "amulet", "ЭКОамулет", 1000, "pending"⟩)] 3).1.map
          Prod.snd).flatten) = 1 :=
  ⟨by decide,
    (webhook_idempotent
      [("pay_1", ⟨7, "Иванов Иван", "Москва, Тверская 1", "+79990001122",
        "", "amulet", "ЭКОамулет", 1000, "pending"⟩)]
      "pay_1"
      ⟨7, "Иванов Иван", "Москва, Тверская 1", "+79990001122",
        "", "amulet", "ЭКОамулет", 1000, "pending"⟩
      ⟨true, 5, 5⟩ GetB.ok SetB.ok 2 (by decide)).2.1⟩

/-! ## Claim C5: cancellation side effects -/

/-- C5 failing input: a pending certificate order (`cert_digital`, a
product that does not track stock) whose payment is reported canceled.
The handler increments stock from 4 to 5 even though the certificate
never decremented it (bot.py 1973 has no product check, unlike the
mirror-image compensation at bot.py 1360); the rest of the claimed
behaviour — canceled status update, buyer and operator notification,
pending-entry removal, 200 response — does happen. -/
theorem webhook_cancel_cert_increments_stock :
    (handle_yookassa_webhook ⟨"payment.canceled", "pay_1", "canceled"⟩
        (ApiResult.status "canceled") true GetB.ok SetB.ok
        [("pay_1", ⟨7, "Иванов Иван", "-", "+79990001122", "a@b.ru",
          "cert_digital", "Цифровой сертификат Эко-урок", 1000, "pending"⟩)]
        ⟨true, 4, 4⟩)
      = (200, [], ⟨true, 5, 5⟩,
          [Effect.stockInc 1,
            Effect.updateStatus "pay_1" "Отменено",
            Effect.adminMsg "payment-canceled",
            Effect.buyerMsg 7 "payment-canceled"]) ∧
    (⟨true, 5, 5⟩ : StockState) ≠ ⟨true, 4, 4⟩ := by
  constructor
  · rfl
  · decide

/-! ## Retry executor (bot.py 157-159, 536-641) -/

/-- Model of `MAX_RETRIES` (bot.py 157). -/
abbrev MAX_RETRIES : Nat := 3

/-- Model of `RETRY_DELAY` in seconds (bot.py 158). -/
def RETRY_DELAY : ℚ := 2

/-- Model of `RETRY_BACKOFF` (bot.py 159). -/
def RETRY_BACKOFF : ℚ := 3 / 2

/-- The backoff delay `RETRY_DELAY * RETRY_BACKOFF ** attempt`
(bot.py 579, 626). -/
def retryDelay (attempt : Nat) : ℚ :=
  RETRY_DELAY * RETRY_BACKOFF ^ attempt

/-- Outcome of one attempted sheets operation inside a retry loop: it
succeeds, returns `False`, or raises. -/
inductive AttemptOutcome
  | ok
  | retFalse
  | raise
deriving DecidableEq, Repr

/-- Result of a retry loop: the returned boolean, the sleeps performed
between attempts, and how many admin failure alerts were sent. -/
structure RetryRun where
  result : Bool
  sleeps : List ℚ
  alerts : Nat
deriving DecidableEq, Repr

/-- The common retry loop shape of `add_order_to_sheets_with_retry`
(bot.py 540-592) and `update_order_status_with_retry` (bot.py 611-633)
on the sheets-available path, recursing on the remaining loop
iterations (the fuel starts at `MAX_RETRIES` and `attempt + fuel =
MAX_RETRIES` throughout).  An attempt that succeeds returns `True`; an
attempt that returns `False` just moves to the next loop iteration
(no sleep); an attempt that raises sleeps and retries when
`attempt < MAX_RETRIES - 1` and otherwise sends the admin alert and
returns `False`; a loop that runs out of iterations returns `False`
with no alert. -/
def retry_loop_go (out : Nat → AttemptOutcome) :
    Nat → Nat → RetryRun
  | _, 0 => ⟨false, [], 0⟩
  | attempt, Nat.succ fuel =>
      match out attempt with
      | AttemptOutcome.ok => ⟨true, [], 0⟩
      | AttemptOutcome.retFalse => retry_loop_go out (attempt + 1) fuel
      | AttemptOutcome.raise =>
          if attempt < MAX_RETRIES - 1 then
            let r := retry_loop_go out (attempt + 1) fuel
            ⟨r.result, retryDelay attempt :: r.sleeps, r.alerts⟩
          else ⟨false, [], 1⟩

/-- One full retry loop starting at attempt 0. -/
def retry_loop (out : Nat → AttemptOutcome) : RetryRun :=
  retry_loop_go out 0 MAX_RETRIES

/-- Result of calling a Python function: a returned value or a raised
exception. -/
inductive PyOutcome (α : Type)
  | ret (a : α)
  | exn (name : String)
deriving DecidableEq, Repr

/-- Model of `add_order_to_sheets_with_retry` (bot.py 536-606).  With the sheets
backend available it runs the retry loop.  Without it, the local
fallback branch (bot.py 594-604) builds the order dict from the name
`user_id`, which is bound neither as a parameter of this function nor
as a module-level global, so evaluating it raises `NameError` before
anything is stored in `ORDERS_DATA`. -/
def add_order_to_sheets_with_retry (sheetsAvailable : Bool)
    (out : Nat → AttemptOutcome) : PyOutcome Bool × List ℚ × Nat :=
  if sheetsAvailable then
    let r := retry_loop out
    (PyOutcome.ret r.result, r.sleeps, r.alerts)
  else
    (PyOutcome.exn "NameError", [], 0)

/-- Model of `update_order_status_with_retry` (bot.py 608-641).  With the sheets
backend available it runs the same retry loop.  Without it, the local
branch updates `ORDERS_DATA` and returns `True` when the payment id is
present (`found`), and otherwise loops three times doing nothing and
returns `False`. -/
def update_order_status_with_retry (sheetsAvailable : Bool) (found : Bool)
    (out : Nat → AttemptOutcome) : Bool × List ℚ × Nat :=
  if sheetsAvailable then
    let r := retry_loop out
    (r.result, r.sleeps, r.alerts)
  else if found then (true, [], 0)
  else (false, [], 0)

/-- C8 failing input: the durable backend unavailable at call time.  The
claim (and spec §4.2) says the order is written through to the local
fallback and the call returns success without raising, but the fallback
branch raises `NameError` (bot.py 596 reads the undefined name
`user_id`), so no local write happens and no success is returned. -/
theorem add_order_fallback_raises :
    add_order_to_sheets_with_retry false (fun _ => AttemptOutcome.ok)
      = (PyOutcome.exn "NameError", [], 0) ∧
    ∀ b : Bool, (add_order_to_sheets_with_retry false
      (fun _ => AttemptOutcome.ok)).1 ≠ PyOutcome.ret b := by
  constructor
  · rfl
  · intro b
    cases b <;> decide

/-- C9 counterexample: when every attempt fails by returning `False`
(no exception), both retry wrappers return failure with no sleep
between attempts and without invoking the failure callback, against
the claim's unconditional sleeps (2s then 3s) and exhaustion alert. -/
theorem retry_counterexample :
    add_order_to_sheets_with_retry true (fun _ => AttemptOutcome.retFalse)
      = (PyOutcome.ret false, [], 0) ∧
    update_order_status_with_retry true true (fun _ => AttemptOutcome.retFalse)
      = (false, [], 0) ∧
    ([] : List ℚ) ≠ [retryDelay 0, retryDelay 1] ∧
    (0 : Nat) ≠ 1 := by
  refine ⟨rfl, rfl, by simp, by decide⟩

/-- C9 (amended): each wrapper attempts the operation up to
`MAX_RETRIES` (3) times and catches every per-attempt exception, so no
operation exception propagates; the backoff delays are
`RETRY_DELAY * RETRY_BACKOFF ^ attempt`, i.e. 2s then 3s, and every
sleep that occurs is one of these; when every attempt raises, the
wrapper sleeps 2s then 3s between attempts, invokes the admin failure
callback once, and returns failure; but when attempts fail by returning
`False`, the wrapper retries immediately without sleeping and, on
exhaustion, returns failure without invoking the failure callback. -/
theorem retry_policy_spec (out : Nat → AttemptOutcome) :
    (∃ b : Bool, (add_order_to_sheets_with_retry true out).1
      = PyOutcome.ret b) ∧
    retryDelay 0 = 2 ∧ retryDelay 1 = 3 ∧
    (out 0 = AttemptOutcome.raise → out 1 = AttemptOutcome.raise →
      out 2 = AttemptOutcome.raise →
      add_order_to_sheets_with_retry true out
          = (PyOutcome.ret false, [retryDelay 0, retryDelay 1], 1) ∧
        update_order_status_with_retry true true out
          = (false, [retryDelay 0, retryDelay 1], 1)) ∧
    (out 0 = AttemptOutcome.retFalse → out 1 = AttemptOutcome.retFalse →
      out 2 = AttemptOutcome.retFalse →
      add_order_to_sheets_with_retry true out = (PyOutcome.ret false, [], 0) ∧
        update_order_status_with_retry true true out = (false, [], 0)) ∧
    (∀ d ∈ (add_order_to_sheets_with_retry true out).2.1,
      d = retryDelay 0 ∨ d = retryDelay 1) := by
  refine ⟨⟨(retry_loop out).result, by simp [add_order_to_sheets_with_retry]⟩,
    by norm_num [retryDelay, RETRY_DELAY, RETRY_BACKOFF],
    by norm_num [retryDelay, RETRY_DELAY, RETRY_BACKOFF], ?_, ?_, ?_⟩
  · intro h0 h1 h2
    constructor <;>
      simp [add_order_to_sheets_with_retry, update_order_status_with_retry,
        retry_loop, retry_loop_go, h0, h1, h2]
  · intro h0 h1 h2
    constructor <;>
      simp [add_order_to_sheets_with_retry, update_order_status_with_retry,
        retry_loop, retry_loop_go, h0, h1, h2]
  · intro d
    cases h0 : out 0 <;> cases h1 : out 1 <;> cases h2 : out 2 <;>
      simp_all [add_order_to_sheets_with_retry, retry_loop, retry_loop_go]

/-- Witness for C9 (amended): all three attempts raise. -/
theorem retry_policy_spec_witness :
    ((fun _ => AttemptOutcome.raise : Nat → AttemptOutcome) 0
        = AttemptOutcome.raise ∧
      (fun _ => AttemptOutcome.raise : Nat → AttemptOutcome) 1
        = AttemptOutcome.raise ∧
      (fun _ => AttemptOutcome.raise : Nat → AttemptOutcome) 2
        = AttemptOutcome.raise) ∧
    add_order_to_sheets_with_retry true (fun _ => AttemptOutcome.raise)
      = (PyOutcome.ret false, [retryDelay 0, retryDelay 1], 1) :=
  ⟨⟨rfl, rfl, rfl⟩,
    ((retry_policy_spec (fun _ => AttemptOutcome.raise)).2.2.2.1
      rfl rfl rfl).1⟩

/-! ## Address validation and the country gate (bot.py 222-224,
1149-1188)

Python string primitives are modelled character-wise: `str.strip` drops
ASCII whitespace at both ends, `str.lower` lowercases the ASCII and
Cyrillic letters these addresses can contain, and `in` is contiguous
substring containment. -/

/-- The whitespace characters `str.strip` removes (for these inputs). -/
def pyWhitespace : List Char := [' ', '\t', '\n', '\r', '\x0b', '\x0c']

/-- Model of `str.strip`. -/
def pyStrip (s : List Char) : List Char :=
  ((s.dropWhile (fun c => pyWhitespace.contains c)).reverse.dropWhile
    (fun c => pyWhitespace.contains c)).reverse

/-- Model of `str.lower` on one character: ASCII `A`-`Z` and Cyrillic
`А`-`Я` map down by the usual offset, `Ё` maps to `ё`, everything else
is unchanged. -/
def pyLowerChar (c : Char) : Char :=
  if 65 ≤ c.toNat ∧ c.toNat ≤ 90 then Char.ofNat (c.toNat + 32)
  else if 0x410 ≤ c.toNat ∧ c.toNat ≤ 0x42F then Char.ofNat (c.toNat + 0x20)
  else if c.toNat = 0x401 then Char.ofNat 0x451
  else c

/-- Model of `str.lower`. -/
def pyLower (s : List Char) : List Char :=
  s.map pyLowerChar

/-- Whether `hay` starts with `needle`. -/
def startsWithChars : List Char → List Char → Bool
  | [], _ => true
  | _ :: _, [] => false
  | a :: as, b :: bs => a == b && startsWithChars as bs

/-- Model of Python `needle in hay`: contiguous substring containment. -/
def containsChars : List Char → List Char → Bool
  | _, [] => true
  | [], _ :: _ => false
  | hd :: rest, n :: ns =>
      startsWithChars (n :: ns) (hd :: rest) || containsChars rest (n :: ns)

/-- Model of `load_russian_keywords` (bot.py 1149-1157): `russian_keywords.json`
is not part of the repository, so opening it raises and the hard-coded
fallback keyword list is returned. -/
def load_russian_keywords : List String :=
  ["россия", "russia", "москва", "спб"]

/-- Model of `is_russian_address` (bot.py 1159-1171): lowercase the address and
look for any recognised-locality keyword as a substring. -/
def is_russian_address (address : List Char) : Bool :=
  load_russian_keywords.any (fun k => containsChars (pyLower address) k.data)

/-- Model of `validate_address` (bot.py 222-224): the stripped address must be
5 to 500 characters long. -/
def validate_address (address : List Char) : Bool :=
  5 ≤ (pyStrip address).length && (pyStrip address).length ≤ 500

/-- Conversation states (bot.py 154): the relevant members of the
`range(11)` enumeration. -/
def ASKING_ADDRESS : Nat := 2

def SHOWING_REVIEWS : Nat := 3

/-- What one `ask_address` step does to the conversation: re-prompt on
bad length, re-prompt on the country gate, or store the address and
advance. -/
inductive AddressOutcome
  | repromptLength
  | repromptCountry
  | advance (address : List Char)
deriving DecidableEq, Repr

/-- Model of `ask_address` (bot.py 1173-1211): strip the message text; reject
and stay in `ASKING_ADDRESS` when the length check fails, reject with
the Russia-only message and stay when the country gate fails, otherwise
store the address in `user_data` and move to `SHOWING_REVIEWS`. -/
def ask_address (text : String) : Nat × AddressOutcome :=
  let address := pyStrip text.data
  if ¬ validate_address address then
    (ASKING_ADDRESS, AddressOutcome.repromptLength)
  else if ¬ is_russian_address address then
    (ASKING_ADDRESS, AddressOutcome.repromptCountry)
  else (SHOWING_REVIEWS, AddressOutcome.advance address)

/-- C10: every message whose stripped text has valid length (5-500)
but contains no recognised Russian-locality keyword is rejected by the
country gate — the handler stays in `ASKING_ADDRESS` and stores
nothing; and concretely the address `ул. Ленина, 5, Москва` passes the
gate and advances, while `123 Main St, Springfield` fails it and
re-prompts. -/
theorem country_gate (text : String)
    (hv : validate_address (pyStrip text.data) = true)
    (hr : is_russian_address (pyStrip text.data) = false) :
    ask_address text = (ASKING_ADDRESS, AddressOutcome.repromptCountry) ∧
    is_russian_address (pyStrip "ул. Ленина, 5, Москва".data) = true ∧
    is_russian_address (pyStrip "123 Main St, Springfield".data) = false ∧
    ask_address "ул. Ленина, 5, Москва"
      = (SHOWING_REVIEWS,
          AddressOutcome.advance "ул. Ленина, 5, Москва".data) ∧
    ask_address "123 Main St, Springfield"
      = (ASKING_ADDRESS, AddressOutcome.repromptCountry) := by
  refine ⟨?_, by decide, by decide, by decide, by decide⟩
  simp [ask_address, hv, hr]

/-- Witness for C10 at the Springfield address. -/
theorem country_gate_witness :
    (validate_address (pyStrip "123 Main St, Springfield".data) = true ∧
      is_russian_address (pyStrip "123 Main St, Springfield".data) = false) ∧
    ask_address "123 Main St, Springfield"
      = (ASKING_ADDRESS, AddressOutcome.repromptCountry) :=
  ⟨⟨by decide, by decide⟩,
    (country_gate "123 Main St, Springfield" (by decide) (by decide)).1⟩

end EkoBot
